import Mathlib

/-
Shallow embedding of the order-system-microservices repository
(order_service, inventory_service, payment_service).

Stores are modelled as association lists mirroring the SQLAlchemy tables:
the orders table, the stock_items table and the payments table.  Queries of
the form `db.query(M).filter(...).first()` become a first-match lookup, and
a mutation followed by `db.commit()` becomes a first-match in-place update.
JSON event payloads become a record of optional fields; a missing dict key
is `none`.  Python ints are `Int`, Python floats (only used for monetary
amounts, compared against a threshold and defaulted to 0) are `Rat`.
Publishing on the RabbitMQ bus is modelled by returning the list of
published (routing key, payload) pairs; a handler that publishes nothing
returns `[]`.  The `print` of the missing-field warning in
`InventoryConsumer.process_payment_failed` is modelled as a Boolean flag in
the handler result.
-/

/-- JSON event payload: each field is present (`some`) or absent (`none`),
mirroring `dict.get` / `in` checks in the consumers. -/
structure Payload where
  order_id : Option String
  item_sku : Option String
  quantity : Option Int
  amount : Option Rat
  currency : Option String
  reason : Option String
deriving DecidableEq, Repr

/-- A message published on the `events` topic exchange. -/
structure Event where
  routing_key : String
  payload : Payload
deriving DecidableEq, Repr

/-- Row of the orders table (order_service/app/models.py).  The
auto-increment surrogate `id` column is omitted: no handler reads it. -/
structure Order where
  order_id : String
  item_sku : String
  quantity : Int
  amount : Rat
  status : String
  idempotency_key : String
deriving DecidableEq, Repr

/-- Row of the stock_items table (inventory_service/app/models.py). -/
structure StockItem where
  item_sku : String
  quantity : Int
deriving DecidableEq, Repr

/-- Row of the payments table (payment_service/app/models.py). -/
structure Payment where
  order_id : Option String
  amount : Rat
  currency : String
  status : String
  is_successful : Bool
deriving DecidableEq, Repr

/-- `db.query(StockItem).filter(StockItem.item_sku == sku).first()`. -/
def findItem : List StockItem → String → Option StockItem
  | [], _ => none
  | it :: rest, sku => if it.item_sku = sku then some it else findItem rest sku

/-- Set the quantity of the first stock row matching `sku` (the ORM object
mutation plus `db.commit()`). -/
def updateQty : List StockItem → String → Int → List StockItem
  | [], _, _ => []
  | it :: rest, sku, q =>
    if it.item_sku = sku then { it with quantity := q } :: rest
    else it :: updateQty rest sku q

/-- Quantity currently stored for `sku`, if the row exists. -/
def getQty (db : List StockItem) (sku : String) : Option Int :=
  (findItem db sku).map (fun it => it.quantity)

/-- `db.query(Order).filter(Order.order_id == oid).first()`. -/
def findOrder : List Order → String → Option Order
  | [], _ => none
  | o :: rest, oid => if o.order_id = oid then some o else findOrder rest oid

/-- Set the status of the first order row matching `oid` (ORM mutation plus
`db.commit()`). -/
def setStatus : List Order → String → String → List Order
  | [], _, _ => []
  | o :: rest, oid, st =>
    if o.order_id = oid then { o with status := st } :: rest
    else o :: setStatus rest oid st

/-- Status currently stored for the order `oid`, if the row exists. -/
def statusOf (db : List Order) (oid : String) : Option String :=
  (findOrder db oid).map (fun o => o.status)

/-- `db.query(Order).filter(Order.idempotency_key == key).first()`. -/
def findByKey : List Order → String → Option Order
  | [], _ => none
  | o :: rest, k => if o.idempotency_key = k then some o else findByKey rest k

/-- Number of order rows stored for an idempotency key. -/
def countKey : List Order → String → Nat
  | [], _ => 0
  | o :: rest, k => (if o.idempotency_key = k then 1 else 0) + countKey rest k

/-- InventoryConsumer.process_order_created
(inventory_service/app/consumers.py, lines 50-89).  Dict accesses
`data[...]` raise KeyError on a missing field; the surrounding
`try/except` then skips the rest of the handler (the message is still
acked in `finally`).  Note the commit of the decrement happens before the
print that reads `data[...order_id...]`, so a reservation with a missing
order_id still mutates the store but publishes nothing. -/
def process_order_created (db : List StockItem) (data : Payload) :
    List StockItem × List Event :=
  match data.item_sku with
  | none => (db, [])
  | some sku =>
    match findItem db sku with
    | some item =>
      match data.quantity with
      | none => (db, [])
      | some q =>
        if q ≤ item.quantity then
          let db' := updateQty db sku (item.quantity - q)
          match data.order_id with
          | none => (db', [])
          | some _ => (db', [⟨"stock.reserved", data⟩])
        else
          match data.order_id with
          | none => (db, [])
          | some oid =>
            (db, [⟨"stock.rejected",
                   ⟨some oid, none, none, none, none, some "INSUFFICIENT_STOCK"⟩⟩])
    | none =>
      match data.order_id with
      | none => (db, [])
      | some oid =>
        (db, [⟨"stock.rejected",
               ⟨some oid, none, none, none, none, some "INSUFFICIENT_STOCK"⟩⟩])

/-- InventoryConsumer.process_payment_failed
(inventory_service/app/consumers.py, lines 91-119).  The Boolean result is
true exactly when the missing-item-info warning is printed. -/
def process_payment_failed (db : List StockItem) (data : Payload) :
    List StockItem × Bool :=
  match data.item_sku, data.quantity with
  | some sku, some q =>
    match findItem db sku with
    | some item => (updateQty db sku (item.quantity + q), false)
    | none => (db, false)
  | _, _ => (db, true)

/-- The payment authorization threshold hard-coded in
payment_service/app/consumers.py line 59 (`amount < 1000`). -/
def AUTH_CEILING : Rat := 1000

/-- PaymentConsumer.process_stock_reserved
(payment_service/app/consumers.py, lines 43-87).  `data.get` with a
default never raises; the handler appends one payments row and republishes
the consumed payload under the outcome routing key. -/
def process_stock_reserved (db : List Payment) (data : Payload) :
    List Payment × List Event :=
  let amount := data.amount.getD 0
  let st := if amount < AUTH_CEILING then "success" else "failed"
  let row : Payment :=
    ⟨data.order_id, amount, data.currency.getD "USD", st,
     decide (amount < AUTH_CEILING)⟩
  let rk := if amount < AUTH_CEILING then "payment.succeeded" else "payment.failed"
  (db ++ [row], [⟨rk, data⟩])

/-- Status written by OrderConsumer.callback for a given routing key; any
other key leaves the current status in place. -/
def statusFor (rk old : String) : String :=
  if rk = "payment.succeeded" then "COMPLETED"
  else if rk = "stock.rejected" then "CANCELLED_NO_STOCK"
  else if rk = "payment.failed" then "CANCELLED_PAYMENT_FAILED"
  else old

/-- OrderConsumer.callback (order_service/app/consumers.py, lines 38-65).
`event.get("order_id")` is falsy for a missing key and for the empty
string, causing an early return; otherwise the first matching order row,
when present, has its status overwritten per the routing key and the
session is committed. -/
def callback (db : List Order) (rk : String) (ev : Payload) : List Order :=
  match ev.order_id with
  | none => db
  | some oid =>
    if oid = "" then db
    else
      match findOrder db oid with
      | none => db
      | some o => setStatus db oid (statusFor rk o.status)

/-- Outcome of the synchronous HTTP POST to the inventory reserve endpoint
made inside create_order: 2xx with no error key in the body, 2xx with an
error key (treated as failure via a raised RequestException), or an
HTTP/transport error. -/
inductive ReserveResult
  | ok
  | errorBody
  | httpError
deriving DecidableEq, Repr

/-- Outcome of the synchronous HTTP POST to the payment authorize endpoint
made inside create_order. -/
inductive PayResult
  | ok (authorized : Bool)
  | httpError
deriving DecidableEq, Repr

/-- Body of POST /api/v1/orders (order_service/app/main.py OrderRequest). -/
structure OrderRequest where
  item_sku : String
  quantity : Int
  amount : Rat
  idempotency_key : String
deriving DecidableEq, Repr

/-- JSON body returned by create_order: a status, plus an order_id key that
is absent on the early failure returns. -/
structure CreateResponse where
  status : String
  order_id : Option String
deriving DecidableEq, Repr

/-- A compensating POST to the inventory release endpoint issued by
create_order. -/
structure ReleaseCall where
  item_sku : String
  quantity : Int
deriving DecidableEq, Repr

/-- Everything observable about one create_order call: the orders table
afterwards, the HTTP response, the release calls issued, and the events
published on the bus (always empty: order_service/app/main.py performs no
bus publish and does not import the producer). -/
structure CreateResult where
  db : List Order
  resp : CreateResponse
  releases : List ReleaseCall
  events : List Event
deriving DecidableEq, Repr

/-- create_order (order_service/app/main.py, lines 38-117).  The function
is synchronous: it checks the idempotency key, generates a fresh order id
(`newId` stands for `str(uuid.uuid4())`), POSTs to the inventory reserve
endpoint, POSTs to the payment authorize endpoint (releasing stock on
communication failure or decline), persists the order as `confirmed` or
`failed`, and returns that status.  The outcomes of the two HTTP calls are
passed in as `reserve` and `pay`. -/
def create_order (db : List Order) (req : OrderRequest) (newId : String)
    (reserve : ReserveResult) (pay : PayResult) : CreateResult :=
  match findByKey db req.idempotency_key with
  | some existing => ⟨db, ⟨existing.status, some existing.order_id⟩, [], []⟩
  | none =>
    match reserve with
    | .errorBody => ⟨db, ⟨"failed", none⟩, [], []⟩
    | .httpError => ⟨db, ⟨"failed", none⟩, [], []⟩
    | .ok =>
      match pay with
      | .httpError => ⟨db, ⟨"failed", none⟩, [⟨req.item_sku, req.quantity⟩], []⟩
      | .ok authorized =>
        let st := if authorized then "confirmed" else "failed"
        let rel : List ReleaseCall :=
          if authorized then [] else [⟨req.item_sku, req.quantity⟩]
        let newOrder : Order :=
          ⟨newId, req.item_sku, req.quantity, req.amount, st, req.idempotency_key⟩
        ⟨db ++ [newOrder], ⟨st, some newId⟩, rel, []⟩

/-- add_or_update_item, the POST /api/v1/stock/items endpoint
(inventory_service/app/main.py, lines 39-63).  Returns the new store and
the (item_sku, quantity) pair echoed in the response. -/
def add_or_update_item (db : List StockItem) (sku : String) (q : Int) :
    List StockItem × StockItem :=
  match findItem db sku with
  | some it => (updateQty db sku (it.quantity + q), ⟨sku, it.quantity + q⟩)
  | none => (db ++ [⟨sku, q⟩], ⟨sku, q⟩)

/-- Whether process_order_created would grant the reservation: the stock
row exists and holds at least the requested quantity. -/
def stockAvailable (db : List StockItem) (sku : String) (q : Int) : Bool :=
  match findItem db sku with
  | some it => decide (q ≤ it.quantity)
  | none => false

/-- Sequential processing of a list of order.created payloads by the
inventory consumer, keeping only the evolving stock store. -/
def runOrders (db : List StockItem) : List Payload → List StockItem
  | [] => db
  | e :: es => runOrders (process_order_created db e).1 es

/-- Quantity that process_order_created deducts from the stock row `sku`
when handling `e` against store `db` (zero when the event targets another
sku, lacks fields, or is rejected). -/
def decrementOf (db : List StockItem) (e : Payload) (sku : String) : Int :=
  match e.item_sku, e.quantity with
  | some s, some q =>
    match findItem db s with
    | some it => if s = sku ∧ q ≤ it.quantity then q else 0
    | none => 0
  | _, _ => 0

/-- Total quantity granted against stock row `sku` over a sequence of
order.created payloads processed sequentially. -/
def grantedSum (db : List StockItem) (sku : String) : List Payload → Int
  | [] => 0
  | e :: es => decrementOf db e sku + grantedSum (process_order_created db e).1 sku es

/-! Helper lemmas about the store operations. -/

theorem findItem_updateQty_self (db : List StockItem) (it : StockItem) (sku : String)
    (v : Int) (h : findItem db sku = some it) :
    findItem (updateQty db sku v) sku = some { it with quantity := v } := by
  induction db with
  | nil => simp [findItem] at h
  | cons x rest ih =>
    by_cases hx : x.item_sku = sku
    · rw [findItem, if_pos hx] at h
      cases h
      simp [updateQty, findItem, hx]
    · rw [findItem, if_neg hx] at h
      simp [updateQty, findItem, hx, ih h]

theorem findItem_updateQty_ne (db : List StockItem) (s sku : String) (v : Int)
    (h : s ≠ sku) :
    findItem (updateQty db s v) sku = findItem db sku := by
  induction db with
  | nil => rfl
  | cons x rest ih =>
    by_cases hx : x.item_sku = s
    · have hxk : ¬ x.item_sku = sku := by rw [hx]; exact h
      simp [updateQty, findItem, hx, hxk, h]
    · by_cases hxk : x.item_sku = sku
      · simp [updateQty, findItem, hx, hxk, Ne.symm h]
      · simp [updateQty, findItem, hx, hxk, ih]

theorem updateQty_updateQty (db : List StockItem) (sku : String) (v w : Int) :
    updateQty (updateQty db sku v) sku w = updateQty db sku w := by
  induction db with
  | nil => rfl
  | cons x rest ih =>
    by_cases hx : x.item_sku = sku
    · simp [updateQty, hx]
    · simp [updateQty, hx, ih]

theorem updateQty_self (db : List StockItem) (sku : String) (it : StockItem)
    (h : findItem db sku = some it) :
    updateQty db sku it.quantity = db := by
  induction db with
  | nil => rfl
  | cons x rest ih =>
    by_cases hx : x.item_sku = sku
    · rw [findItem, if_pos hx] at h
      injection h with h
      subst h
      simp only [updateQty, if_pos hx]
    · rw [findItem, if_neg hx] at h
      simp [updateQty, hx, ih h]

theorem findOrder_setStatus_self (db : List Order) (oid st : String) :
    findOrder (setStatus db oid st) oid =
      (findOrder db oid).map (fun o => { o with status := st }) := by
  induction db with
  | nil => rfl
  | cons o rest ih =>
    by_cases h : o.order_id = oid
    · simp [setStatus, findOrder, h]
    · simp [setStatus, findOrder, h, ih]

theorem setStatus_setStatus (db : List Order) (oid a b : String) :
    setStatus (setStatus db oid a) oid b = setStatus db oid b := by
  induction db with
  | nil => rfl
  | cons o rest ih =>
    by_cases h : o.order_id = oid
    · simp [setStatus, h]
    · simp [setStatus, h, ih]

theorem statusFor_idem (rk s : String) :
    statusFor rk (statusFor rk s) = statusFor rk s := by
  unfold statusFor
  by_cases h1 : rk = "payment.succeeded" <;>
    by_cases h2 : rk = "stock.rejected" <;>
      by_cases h3 : rk = "payment.failed" <;>
        simp [h1, h2, h3]

theorem findByKey_append_of_none (db : List Order) (o : Order) (k : String)
    (h : findByKey db k = none) :
    findByKey (db ++ [o]) k = if o.idempotency_key = k then some o else none := by
  induction db with
  | nil => rfl
  | cons x rest ih =>
    rw [findByKey] at h
    by_cases hx : x.idempotency_key = k
    · rw [if_pos hx] at h; exact absurd h (by simp)
    · rw [if_neg hx] at h
      simpa [findByKey, hx] using ih h

theorem countKey_append (a b : List Order) (k : String) :
    countKey (a ++ b) k = countKey a k + countKey b k := by
  induction a with
  | nil => simp [countKey]
  | cons x rest ih =>
    simp [countKey, ih]
    omega

theorem countKey_eq_zero_of_none (db : List Order) (k : String)
    (h : findByKey db k = none) :
    countKey db k = 0 := by
  induction db with
  | nil => rfl
  | cons x rest ih =>
    rw [findByKey] at h
    by_cases hx : x.idempotency_key = k
    · rw [if_pos hx] at h; exact absurd h (by simp)
    · rw [if_neg hx] at h
      simp [countKey, hx, ih h]

/-! Claim theorems. -/

/-- Claim C2: the claim states that create_order, for a fresh idempotency
key, persists a PENDING order, publishes an order.created event, and
returns immediately with status PENDING.  Evaluating the embedded
create_order at a concrete fresh-key input on the happy path shows the
code instead persists and returns status "confirmed" and publishes no
event at all: the function is a synchronous orchestration over HTTP. -/
theorem create_order_sync_not_pending :
    create_order [] ⟨"P-1001", 3, 150, "key-1"⟩ "B7-42" .ok (.ok true) =
      ⟨[⟨"B7-42", "P-1001", 3, 150, "confirmed", "key-1"⟩],
       ⟨"confirmed", some "B7-42"⟩, [], []⟩
    ∧ "confirmed" ≠ "PENDING" := by
  exact ⟨rfl, by decide⟩

/-- Claim C9: the stock upsert endpoint accumulates rather than replaces;
an existing row for the sku gets the posted quantity added to its current
quantity, and only an absent sku creates a row holding exactly the posted
quantity. -/
theorem stock_upsert_accumulates (db : List StockItem) (sku : String) (q : Int) :
    (∀ it, findItem db sku = some it →
      add_or_update_item db sku q =
        (updateQty db sku (it.quantity + q), ⟨sku, it.quantity + q⟩))
    ∧ (findItem db sku = none →
      add_or_update_item db sku q = (db ++ [⟨sku, q⟩], ⟨sku, q⟩)) := by
  constructor
  · intro it h
    simp [add_or_update_item, h]
  · intro h
    simp [add_or_update_item, h]

/-- Witness for stock_upsert_accumulates: reposting the same seed request
for a sku holding 10 units leaves 20 units. -/
theorem stock_upsert_accumulates_witness :
    add_or_update_item [⟨"P-1001", 10⟩] "P-1001" 10 =
      ([⟨"P-1001", 20⟩], ⟨"P-1001", 20⟩) := by
  have h := (stock_upsert_accumulates [⟨"P-1001", 10⟩] "P-1001" 10).1
    ⟨"P-1001", 10⟩ (by decide)
  exact h.trans (by decide)

/-- Claim C10: a stock.reserved payload without an amount field is
processed with amount defaulted to 0, which is below the ceiling, so the
payment handler records a successful zero-amount payment row and publishes
payment.succeeded. -/
theorem missing_amount_treated_as_zero (db : List Payment) (data : Payload)
    (hno : data.amount = none) :
    process_stock_reserved db data =
      (db ++ [⟨data.order_id, 0, data.currency.getD "USD", "success", true⟩],
       [⟨"payment.succeeded", data⟩]) := by
  have h0 : (0 : Rat) < AUTH_CEILING := by norm_num [AUTH_CEILING]
  simp [process_stock_reserved, hno, h0]

/-- Witness for missing_amount_treated_as_zero at a concrete payload. -/
theorem missing_amount_treated_as_zero_witness :
    process_stock_reserved []
        ⟨some "o1", some "P-1001", some 3, none, none, none⟩ =
      ([⟨some "o1", 0, "USD", "success", true⟩],
       [⟨"payment.succeeded", ⟨some "o1", some "P-1001", some 3, none, none, none⟩⟩]) := by
  have h := missing_amount_treated_as_zero []
    ⟨some "o1", some "P-1001", some 3, none, none, none⟩ rfl
  exact h.trans (by decide)

/-- Claim C5: for a stock.reserved event carrying amount a, the payment
handler approves exactly when a is below the authorization ceiling,
appends exactly one payment row recording that outcome in both status and
is_successful, and publishes payment.succeeded or payment.failed
accordingly, republishing the consumed payload so the sku and quantity are
carried forward unchanged. -/
theorem payment_authorization_decision (db : List Payment) (data : Payload)
    (a : Rat) (ha : data.amount = some a) :
    ∃ p : Payment,
      (process_stock_reserved db data).1 = db ++ [p]
      ∧ (p.is_successful = true ↔ a < AUTH_CEILING)
      ∧ p.status = (if a < AUTH_CEILING then "success" else "failed")
      ∧ p.amount = a
      ∧ p.order_id = data.order_id
      ∧ (process_stock_reserved db data).2 =
          [⟨(if a < AUTH_CEILING then "payment.succeeded" else "payment.failed"),
            data⟩]
      ∧ ∀ e ∈ (process_stock_reserved db data).2,
          e.payload.item_sku = data.item_sku ∧ e.payload.quantity = data.quantity := by
  have hgd : data.amount.getD 0 = a := by rw [ha]; rfl
  refine ⟨⟨data.order_id, a, data.currency.getD "USD",
           if a < AUTH_CEILING then "success" else "failed",
           decide (a < AUTH_CEILING)⟩, ?_, ?_, rfl, rfl, rfl, ?_, ?_⟩
  · simp [process_stock_reserved, hgd]
  · exact decide_eq_true_iff
  · simp [process_stock_reserved, hgd]
  · intro e he
    simp only [process_stock_reserved, List.mem_singleton] at he
    subst he
    exact ⟨rfl, rfl⟩

/-- Witness for payment_authorization_decision: an amount of 1500 is not
below the ceiling of 1000, so the persisted row is failed and the
published event is payment.failed with the sku and quantity intact. -/
theorem payment_authorization_decision_witness :
    ∃ p : Payment,
      (process_stock_reserved []
        ⟨some "o3", some "P-1001", some 4, some 1500, some "USD", none⟩).1 = [] ++ [p]
      ∧ (p.is_successful = true ↔ (1500 : Rat) < AUTH_CEILING)
      ∧ p.status = (if (1500 : Rat) < AUTH_CEILING then "success" else "failed")
      ∧ p.amount = 1500
      ∧ p.order_id = some "o3"
      ∧ (process_stock_reserved []
          ⟨some "o3", some "P-1001", some 4, some 1500, some "USD", none⟩).2 =
        [⟨(if (1500 : Rat) < AUTH_CEILING then "payment.succeeded" else "payment.failed"),
          ⟨some "o3", some "P-1001", some 4, some 1500, some "USD", none⟩⟩]
      ∧ ∀ e ∈ (process_stock_reserved []
          ⟨some "o3", some "P-1001", some 4, some 1500, some "USD", none⟩).2,
          e.payload.item_sku = some "P-1001" ∧ e.payload.quantity = some 4 :=
  payment_authorization_decision []
    ⟨some "o3", some "P-1001", some 4, some 1500, some "USD", none⟩ 1500 rfl

/-- Claim C8: a terminal event naming an unknown order leaves the order
store unchanged (the coordinator embedding is a total function, so no
exception escapes), and a payment.failed payload missing the carried
item_sku or quantity field leaves the stock store unchanged while raising
the missing-item-info warning flag. -/
theorem integrity_anomalies_dropped (dbO : List Order) (rk : String)
    (ev : Payload) (dbS : List StockItem) (d : Payload)
    (h1 : ∀ oid, ev.order_id = some oid → findOrder dbO oid = none)
    (h2 : d.item_sku = none ∨ d.quantity = none) :
    callback dbO rk ev = dbO ∧ process_payment_failed dbS d = (dbS, true) := by
  constructor
  · unfold callback
    cases hoid : ev.order_id with
    | none => rfl
    | some oid =>
      by_cases he : oid = ""
      · simp [he]
      · simp [he, h1 oid hoid]
  · rcases h2 with h | h
    · simp [process_payment_failed, h]
    · cases hs : d.item_sku <;> simp [process_payment_failed, h, hs]

/-- Witness for integrity_anomalies_dropped: a payment.succeeded event for
the unknown order o9 against a store holding only o1, and a payment.failed
payload with no quantity field against a seeded stock store. -/
theorem integrity_anomalies_dropped_witness :
    callback [⟨"o1", "P-1001", 3, 150, "PENDING", "k1"⟩] "payment.succeeded"
        ⟨some "o9", none, none, none, none, none⟩ =
      [⟨"o1", "P-1001", 3, 150, "PENDING", "k1"⟩]
    ∧ process_payment_failed [⟨"P-1001", 10⟩]
        ⟨some "o9", some "P-1001", none, none, none, none⟩ =
      ([⟨"P-1001", 10⟩], true) := by
  have h := integrity_anomalies_dropped
    [⟨"o1", "P-1001", 3, 150, "PENDING", "k1"⟩] "payment.succeeded"
    ⟨some "o9", none, none, none, none, none⟩
    [⟨"P-1001", 10⟩] ⟨some "o9", some "P-1001", none, none, none, none⟩
    (by intro oid h; injection h with h; subst h; decide)
    (Or.inr rfl)
  exact h

/-- Claim C4: on order.created the inventory handler decrements the stock
row by the requested quantity and publishes stock.reserved (republishing
the consumed payload, so order_id, sku, quantity, amount and currency are
carried forward) exactly when a row exists for the sku with at least the
requested quantity; otherwise it publishes stock.rejected with reason
INSUFFICIENT_STOCK and leaves the store unchanged. -/
theorem inventory_reserve_or_reject (db : List StockItem) (data : Payload)
    (sku : String) (q : Int) (oid : String)
    (hs : data.item_sku = some sku) (hq : data.quantity = some q)
    (ho : data.order_id = some oid) :
    (∀ it, findItem db sku = some it → q ≤ it.quantity →
       process_order_created db data =
         (updateQty db sku (it.quantity - q), [⟨"stock.reserved", data⟩]))
    ∧ (stockAvailable db sku q = false →
       process_order_created db data =
         (db, [⟨"stock.rejected",
                ⟨some oid, none, none, none, none, some "INSUFFICIENT_STOCK"⟩⟩])) := by
  constructor
  · intro it hit hle
    simp [process_order_created, hs, hit, hq, ho, if_pos hle]
  · intro hav
    unfold stockAvailable at hav
    cases hit : findItem db sku with
    | some it =>
      rw [hit] at hav
      have hlt : ¬ q ≤ it.quantity := by simpa using hav
      simp [process_order_created, hs, hit, hq, ho, if_neg hlt]
    | none =>
      simp [process_order_created, hs, hit, ho]

/-- Witness for inventory_reserve_or_reject: requesting 3 of a sku holding
10 grants the reservation, leaving 7 and publishing stock.reserved with
the full consumed payload. -/
theorem inventory_reserve_or_reject_witness :
    process_order_created [⟨"P-1001", 10⟩]
        ⟨some "o1", some "P-1001", some 3, some 150, some "USD", none⟩ =
      ([⟨"P-1001", 7⟩],
       [⟨"stock.reserved",
         ⟨some "o1", some "P-1001", some 3, some 150, some "USD", none⟩⟩]) := by
  have h := (inventory_reserve_or_reject [⟨"P-1001", 10⟩]
      ⟨some "o1", some "P-1001", some 3, some 150, some "USD", none⟩
      "P-1001" 3 "o1" rfl rfl rfl).1 ⟨"P-1001", 10⟩ (by decide) (by decide)
  exact h.trans (by decide)

/-- Claim C1 counterexample: the claim states that terminal statuses are
absorbing and the coordinator mutates a status only while it is PENDING.
The embedded handler has no such guard: starting from an order already in
the terminal status COMPLETED, a payment.failed event for its order_id
rewrites the status to CANCELLED_PAYMENT_FAILED. -/
theorem terminal_status_overwritten :
    statusOf [⟨"o1", "P-1001", 3, 150, "COMPLETED", "k1"⟩] "o1" = some "COMPLETED"
    ∧ statusOf (callback [⟨"o1", "P-1001", 3, 150, "COMPLETED", "k1"⟩]
        "payment.failed" ⟨some "o1", some "P-1001", some 3, none, none, none⟩) "o1" =
      some "CANCELLED_PAYMENT_FAILED"
    ∧ ("CANCELLED_PAYMENT_FAILED" : String) ≠ "COMPLETED" := by
  decide

/-- Claim C1 as amended: the coordinator terminal-event handler overwrites
the status of any found order according to the routing-key mapping,
regardless of whether the order is still PENDING; redelivering the same
event is idempotent because the same status value is re-assigned, but a
different terminal event does change an already-terminal status (see the
counterexample). -/
theorem callback_overwrites_by_routing_key (db : List Order) (rk oid : String)
    (ev : Payload) (o : Order)
    (hev : ev.order_id = some oid) (hne : oid ≠ "")
    (hfind : findOrder db oid = some o) :
    statusOf (callback db rk ev) oid = some (statusFor rk o.status)
    ∧ callback (callback db rk ev) rk ev = callback db rk ev := by
  have hcb : callback db rk ev = setStatus db oid (statusFor rk o.status) := by
    simp [callback, hev, hne, hfind]
  constructor
  · rw [hcb]
    unfold statusOf
    rw [findOrder_setStatus_self, hfind]
    rfl
  · rw [hcb]
    have hf2 : findOrder (setStatus db oid (statusFor rk o.status)) oid =
        some { o with status := statusFor rk o.status } := by
      rw [findOrder_setStatus_self, hfind]
      rfl
    simp [callback, hev, hne, hf2, setStatus_setStatus, statusFor_idem]

/-- Witness for callback_overwrites_by_routing_key: a payment.succeeded
event moves a PENDING order to COMPLETED, and redelivering the same event
changes nothing further. -/
theorem callback_overwrites_witness :
    statusOf (callback [⟨"o1", "P-1001", 3, 150, "PENDING", "k1"⟩]
        "payment.succeeded" ⟨some "o1", some "P-1001", some 3, none, none, none⟩)
      "o1" = some "COMPLETED"
    ∧ callback (callback [⟨"o1", "P-1001", 3, 150, "PENDING", "k1"⟩]
        "payment.succeeded" ⟨some "o1", some "P-1001", some 3, none, none, none⟩)
        "payment.succeeded" ⟨some "o1", some "P-1001", some 3, none, none, none⟩ =
      callback [⟨"o1", "P-1001", 3, 150, "PENDING", "k1"⟩]
        "payment.succeeded" ⟨some "o1", some "P-1001", some 3, none, none, none⟩ := by
  have h := callback_overwrites_by_routing_key
    [⟨"o1", "P-1001", 3, 150, "PENDING", "k1"⟩] "payment.succeeded" "o1"
    ⟨some "o1", some "P-1001", some 3, none, none, none⟩
    ⟨"o1", "P-1001", 3, 150, "PENDING", "k1"⟩ rfl (by decide) rfl
  exact ⟨h.1.trans (by decide), h.2⟩

/-- Claim C3 counterexample: the claim quantifies over every pair of
create_order calls with the same idempotency key.  When the first call
fails before persisting (here the inventory reserve response carries an
error body, exactly what the reserve endpoint returns on insufficient
stock), no row is stored, so a second call with the same key re-executes
the whole flow: it returns a different status than the first call and
mutates the store. -/
theorem repeat_create_after_unpersisted_first :
    (create_order [] ⟨"P-1001", 3, 150, "k1"⟩ "id-1" .errorBody (.ok true)).resp.status
      = "failed"
    ∧ (create_order
        (create_order [] ⟨"P-1001", 3, 150, "k1"⟩ "id-1" .errorBody (.ok true)).db
        ⟨"P-1001", 3, 150, "k1"⟩ "id-2" .ok (.ok true)).resp.status = "confirmed"
    ∧ (create_order
        (create_order [] ⟨"P-1001", 3, 150, "k1"⟩ "id-1" .errorBody (.ok true)).db
        ⟨"P-1001", 3, 150, "k1"⟩ "id-2" .ok (.ok true)).db ≠
      (create_order [] ⟨"P-1001", 3, 150, "k1"⟩ "id-1" .errorBody (.ok true)).db := by
  decide

/-- Claim C3 as amended: whenever the first call with a fresh idempotency
key actually persists an order (its reserve call succeeded and the payment
service answered), any later call with the same key returns the same
response (order id and status), performs no store mutation, publishes no
event, issues no release call, and exactly one order row exists for the
key. -/
theorem idempotent_create_after_persist (db : List Order)
    (req req2 : OrderRequest) (id1 id2 : String)
    (rv2 : ReserveResult) (pv2 : PayResult) (b : Bool)
    (hfresh : findByKey db req.idempotency_key = none)
    (hkey : req2.idempotency_key = req.idempotency_key) :
    (create_order (create_order db req id1 .ok (.ok b)).db req2 id2 rv2 pv2).resp =
      (create_order db req id1 .ok (.ok b)).resp
    ∧ (create_order (create_order db req id1 .ok (.ok b)).db req2 id2 rv2 pv2).db =
      (create_order db req id1 .ok (.ok b)).db
    ∧ (create_order (create_order db req id1 .ok (.ok b)).db req2 id2 rv2 pv2).events = []
    ∧ (create_order (create_order db req id1 .ok (.ok b)).db req2 id2 rv2 pv2).releases = []
    ∧ countKey (create_order (create_order db req id1 .ok (.ok b)).db req2 id2 rv2 pv2).db
        req.idempotency_key = 1 := by
  have h1 : create_order db req id1 .ok (.ok b) =
      ⟨db ++ [⟨id1, req.item_sku, req.quantity, req.amount,
               if b then "confirmed" else "failed", req.idempotency_key⟩],
       ⟨if b then "confirmed" else "failed", some id1⟩,
       if b then [] else [⟨req.item_sku, req.quantity⟩], []⟩ := by
    simp [create_order, hfresh]
  have hdb : (create_order db req id1 .ok (.ok b)).db =
      db ++ [⟨id1, req.item_sku, req.quantity, req.amount,
              if b then "confirmed" else "failed", req.idempotency_key⟩] := by
    rw [h1]
  have hresp : (create_order db req id1 .ok (.ok b)).resp =
      ⟨if b then "confirmed" else "failed", some id1⟩ := by
    rw [h1]
  have hfind2 : findByKey (db ++ [⟨id1, req.item_sku, req.quantity, req.amount,
      if b then "confirmed" else "failed", req.idempotency_key⟩]) req2.idempotency_key =
      some ⟨id1, req.item_sku, req.quantity, req.amount,
            if b then "confirmed" else "failed", req.idempotency_key⟩ := by
    rw [hkey, findByKey_append_of_none db _ _ hfresh]
    simp
  have h2 : create_order (db ++ [⟨id1, req.item_sku, req.quantity, req.amount,
      if b then "confirmed" else "failed", req.idempotency_key⟩]) req2 id2 rv2 pv2 =
      ⟨db ++ [⟨id1, req.item_sku, req.quantity, req.amount,
              if b then "confirmed" else "failed", req.idempotency_key⟩],
       ⟨if b then "confirmed" else "failed", some id1⟩, [], []⟩ := by
    simp [create_order, hfind2]
  rw [hdb, h2, hresp]
  refine ⟨rfl, rfl, rfl, rfl, ?_⟩
  rw [countKey_append, countKey_eq_zero_of_none db _ hfresh]
  simp [countKey]

/-- Witness for idempotent_create_after_persist: two calls with key k1,
the first persisting a confirmed order with id id-1; the second returns
the same response without touching the store. -/
theorem idempotent_create_witness :
    (create_order (create_order [] ⟨"P-1001", 3, 150, "k1"⟩ "id-1" .ok (.ok true)).db
        ⟨"P-1001", 3, 150, "k1"⟩ "id-2" .ok (.ok true)).resp =
      (create_order [] ⟨"P-1001", 3, 150, "k1"⟩ "id-1" .ok (.ok true)).resp
    ∧ (create_order (create_order [] ⟨"P-1001", 3, 150, "k1"⟩ "id-1" .ok (.ok true)).db
        ⟨"P-1001", 3, 150, "k1"⟩ "id-2" .ok (.ok true)).db =
      (create_order [] ⟨"P-1001", 3, 150, "k1"⟩ "id-1" .ok (.ok true)).db
    ∧ (create_order (create_order [] ⟨"P-1001", 3, 150, "k1"⟩ "id-1" .ok (.ok true)).db
        ⟨"P-1001", 3, 150, "k1"⟩ "id-2" .ok (.ok true)).events = []
    ∧ (create_order (create_order [] ⟨"P-1001", 3, 150, "k1"⟩ "id-1" .ok (.ok true)).db
        ⟨"P-1001", 3, 150, "k1"⟩ "id-2" .ok (.ok true)).releases = []
    ∧ countKey (create_order (create_order [] ⟨"P-1001", 3, 150, "k1"⟩ "id-1" .ok (.ok true)).db
        ⟨"P-1001", 3, 150, "k1"⟩ "id-2" .ok (.ok true)).db "k1" = 1 :=
  idempotent_create_after_persist [] ⟨"P-1001", 3, 150, "k1"⟩
    ⟨"P-1001", 3, 150, "k1"⟩ "id-1" "id-2" .ok (.ok true) true rfl rfl

/-- Claim C6: reserving q units of a sku via order.created and then
processing one payment.failed event carrying that sku and quantity q
restores the stock store exactly; in particular the quantity of the sku
equals its value before the saga began. -/
theorem compensation_round_trip (db : List StockItem) (sku : String)
    (it : StockItem) (q : Int) (d1 d2 : Payload)
    (hfind : findItem db sku = some it) (hq : q ≤ it.quantity)
    (h1s : d1.item_sku = some sku) (h1q : d1.quantity = some q)
    (h2s : d2.item_sku = some sku) (h2q : d2.quantity = some q) :
    (process_payment_failed (process_order_created db d1).1 d2).1 = db
    ∧ getQty (process_payment_failed (process_order_created db d1).1 d2).1 sku =
      some it.quantity := by
  have hstep : (process_order_created db d1).1 = updateQty db sku (it.quantity - q) := by
    cases ho : d1.order_id <;>
      simp [process_order_created, h1s, hfind, h1q, if_pos hq, ho]
  have hfind2 : findItem (updateQty db sku (it.quantity - q)) sku =
      some { it with quantity := it.quantity - q } :=
    findItem_updateQty_self db it sku _ hfind
  have hcomp : (process_payment_failed (updateQty db sku (it.quantity - q)) d2).1 =
      updateQty (updateQty db sku (it.quantity - q)) sku (it.quantity - q + q) := by
    simp [process_payment_failed, h2s, h2q, hfind2]
  have hrestore : (process_payment_failed (process_order_created db d1).1 d2).1 = db := by
    rw [hstep, hcomp, updateQty_updateQty]
    have harith : it.quantity - q + q = it.quantity := by omega
    rw [harith, updateQty_self db sku it hfind]
  exact ⟨hrestore, by rw [hrestore]; simp [getQty, hfind]⟩

/-- Witness for compensation_round_trip: a sku seeded at 10 units, an
order for 4 units whose payment later fails; the compensating increment
brings the store back to 10. -/
theorem compensation_round_trip_witness :
    (process_payment_failed
        (process_order_created [⟨"P-1001", 10⟩]
          ⟨some "o3", some "P-1001", some 4, some 1500, some "USD", none⟩).1
        ⟨some "o3", some "P-1001", some 4, none, none, none⟩).1 = [⟨"P-1001", 10⟩]
    ∧ getQty (process_payment_failed
        (process_order_created [⟨"P-1001", 10⟩]
          ⟨some "o3", some "P-1001", some 4, some 1500, some "USD", none⟩).1
        ⟨some "o3", some "P-1001", some 4, none, none, none⟩).1 "P-1001" = some 10 :=
  compensation_round_trip [⟨"P-1001", 10⟩] "P-1001" ⟨"P-1001", 10⟩ 4
    ⟨some "o3", some "P-1001", some 4, some 1500, some "USD", none⟩
    ⟨some "o3", some "P-1001", some 4, none, none, none⟩
    rfl (by decide) rfl rfl rfl rfl

/-- One inventory step: the stock row for `sku` loses exactly
`decrementOf db e sku`, which is nonnegative when the event quantities
are, and the row never goes negative. -/
theorem conservation_step (sku : String) (db : List StockItem) (it : StockItem)
    (e : Payload) (hfind : findItem db sku = some it) (hn : 0 ≤ it.quantity)
    (hq : 0 ≤ e.quantity.getD 0) :
    ∃ it₂, findItem (process_order_created db e).1 sku = some it₂
      ∧ it₂.quantity = it.quantity - decrementOf db e sku
      ∧ 0 ≤ decrementOf db e sku
      ∧ 0 ≤ it₂.quantity := by
  cases hsk : e.item_sku with
  | none =>
    refine ⟨it, ?_, ?_, ?_, hn⟩ <;> simp [process_order_created, decrementOf, hsk, hfind, hn]
  | some s =>
    cases hfs : findItem db s with
    | none =>
      have hstore : (process_order_created db e).1 = db := by
        cases ho : e.order_id <;> simp [process_order_created, hsk, hfs, ho]
      have hdec : decrementOf db e sku = 0 := by
        cases hqe : e.quantity <;> simp [decrementOf, hsk, hqe, hfs]
      exact ⟨it, by rw [hstore]; exact hfind, by rw [hdec]; omega,
             by rw [hdec], hn⟩
    | some itS =>
      cases hqe : e.quantity with
      | none =>
        have hstore : (process_order_created db e).1 = db := by
          simp [process_order_created, hsk, hfs, hqe]
        refine ⟨it, by rw [hstore]; exact hfind, ?_, ?_, hn⟩ <;>
          simp [decrementOf, hsk, hqe]
      | some q =>
        have hq0 : 0 ≤ q := by rw [hqe] at hq; simpa using hq
        by_cases hle : q ≤ itS.quantity
        · have hstore : (process_order_created db e).1 = updateQty db s (itS.quantity - q) := by
            cases ho : e.order_id <;>
              simp [process_order_created, hsk, hfs, hqe, if_pos hle, ho]
          by_cases hss : s = sku
          · subst hss
            have hit : itS = it := by rw [hfind] at hfs; injection hfs with h; exact h.symm
            subst hit
            refine ⟨{ itS with quantity := itS.quantity - q }, ?_, ?_, ?_, ?_⟩
            · rw [hstore]; exact findItem_updateQty_self db itS s _ hfind
            · simp [decrementOf, hsk, hqe, hfs, hle]
            · simp [decrementOf, hsk, hqe, hfs, hle, hq0]
            · simp; omega
          · refine ⟨it, ?_, ?_, ?_, hn⟩
            · rw [hstore, findItem_updateQty_ne db s sku _ hss]; exact hfind
            · simp [decrementOf, hsk, hqe, hfs, hss]
            · simp [decrementOf, hsk, hqe, hfs, hss]
        · have hstore : (process_order_created db e).1 = db := by
            cases ho : e.order_id <;>
              simp [process_order_created, hsk, hfs, hqe, if_neg hle, ho]
          refine ⟨it, by rw [hstore]; exact hfind, ?_, ?_, hn⟩ <;>
            simp [decrementOf, hsk, hqe, hfs, hle]

/-- Sequential conservation: over any run of order.created payloads the
stock row for `sku` ends at its initial quantity minus the granted total,
which is nonnegative throughout. -/
theorem conservation_run (sku : String) :
    ∀ (es : List Payload) (db : List StockItem) (it : StockItem),
      findItem db sku = some it → 0 ≤ it.quantity →
      (∀ e ∈ es, 0 ≤ e.quantity.getD 0) →
      ∃ it', findItem (runOrders db es) sku = some it'
        ∧ it'.quantity = it.quantity - grantedSum db sku es
        ∧ 0 ≤ grantedSum db sku es
        ∧ 0 ≤ it'.quantity := by
  intro es
  induction es with
  | nil =>
    intro db it h hn _
    exact ⟨it, h, by simp [grantedSum, runOrders], by simp [grantedSum], hn⟩
  | cons e rest ih =>
    intro db it hfind hn hq
    obtain ⟨it₂, h2find, h2q, h2dn, h2n⟩ :=
      conservation_step sku db it e hfind hn (hq e (List.mem_cons_self e rest))
    obtain ⟨it', hf', hq', hs', hn'⟩ :=
      ih (process_order_created db e).1 it₂ h2find h2n
        (fun e' he' => hq e' (List.mem_cons_of_mem _ he'))
    refine ⟨it', ?_, ?_, ?_, hn'⟩
    · simpa [runOrders] using hf'
    · rw [hq', h2q]
      simp only [grantedSum]
      omega
    · simp only [grantedSum]
      omega

/-- Claim C7: starting from a stock row with nonnegative quantity, for any
sequence of order.created events with nonnegative requested quantities,
processed one at a time, the granted total over any initial segment never
exceeds the starting quantity, and after every step the row exists with a
nonnegative quantity. -/
theorem stock_conservation (db : List StockItem) (sku : String)
    (it : StockItem) (es : List Payload)
    (hfind : findItem db sku = some it) (hn : 0 ≤ it.quantity)
    (hq : ∀ e ∈ es, 0 ≤ e.quantity.getD 0) :
    ∀ l₁ l₂ : List Payload, es = l₁ ++ l₂ →
      grantedSum db sku l₁ ≤ it.quantity
      ∧ ∃ it', findItem (runOrders db l₁) sku = some it' ∧ 0 ≤ it'.quantity := by
  intro l₁ l₂ hsplit
  have hq₁ : ∀ e ∈ l₁, 0 ≤ e.quantity.getD 0 := by
    intro e he
    exact hq e (hsplit ▸ List.mem_append_left _ he)
  obtain ⟨it', hf, hqty, hsn, hn'⟩ := conservation_run sku l₁ db it hfind hn hq₁
  exact ⟨by omega, ⟨it', hf, hn'⟩⟩

/-- Witness for stock_conservation: a sku seeded at 10, one order for 3
(granted) and one for 15 (rejected); the granted total over the whole run
is at most 10 and the row stays nonnegative. -/
theorem stock_conservation_witness :
    grantedSum [⟨"P-1001", 10⟩] "P-1001"
        [⟨some "o1", some "P-1001", some 3, some 150, some "USD", none⟩,
         ⟨some "o2", some "P-1001", some 15, some 999, some "USD", none⟩] ≤ 10
    ∧ ∃ it', findItem (runOrders [⟨"P-1001", 10⟩]
        [⟨some "o1", some "P-1001", some 3, some 150, some "USD", none⟩,
         ⟨some "o2", some "P-1001", some 15, some 999, some "USD", none⟩]) "P-1001" =
        some it' ∧ 0 ≤ it'.quantity :=
  stock_conservation [⟨"P-1001", 10⟩] "P-1001" ⟨"P-1001", 10⟩
    [⟨some "o1", some "P-1001", some 3, some 150, some "USD", none⟩,
     ⟨some "o2", some "P-1001", some 15, some 999, some "USD", none⟩]
    rfl (by decide) (by decide)
    [⟨some "o1", some "P-1001", some 3, some 150, some "USD", none⟩,
     ⟨some "o2", some "P-1001", some 15, some 999, some "USD", none⟩] []
    (by simp)
